import Mathlib

/-!
Verification of the `sanity.h` hardware-abstraction layer (camlink-re).

The repository source under scrutiny is `src/exploration/firmware/sanity.h`,
which declares a GPIO wrapper (`set_gpio_value`, `get_gpio_value`) and an EP0
control-transfer wrapper (`send_on_ep0`, `receive_on_ep0`, `send_ep0_ack`).
The header contains declarations only; the behavioral contract is given by the
design document. Definitions below therefore come in two groups:

* embeddings of the *declared* C signatures (return and parameter types),
  translated directly from the header; and
* behavioral models whose doc comments start `Modelled from the spec:`,
  standing in for the function bodies that are absent from the source.
-/

/-- Modelled from the spec: the error taxonomy of §7 (the source header declares
no error type; these are the four failure outcomes the design names:
`InvalidPin`, `HardwareFault`, `TransferAborted`, `BufferTooSmall`). -/
inductive FwError where
  | invalidPin
  | hardwareFault
  | transferAborted
  | bufferTooSmall
deriving DecidableEq, Repr, Fintype

/-- Return type of `set_gpio_value` as declared in sanity.h line 35: `void`. -/
abbrev SetGpioValueRet : Type := Unit

/-- Return type of `get_gpio_value` as declared in sanity.h line 36: `bool`
(the pin level itself; no separate status channel). -/
abbrev GetGpioValueRet : Type := Bool

/-- Return type of `send_on_ep0` as declared in sanity.h line 38: `void`. -/
abbrev SendOnEp0Ret : Type := Unit

/-- Return type of `receive_on_ep0` as declared in sanity.h line 39: `int`. -/
abbrev ReceiveOnEp0Ret : Type := Int

/-- Return type of `send_ep0_ack` as declared in sanity.h line 40: `void`. -/
abbrev SendEp0AckRet : Type := Unit

/-- Parameter list of `send_ep0_ack` as declared in sanity.h line 40: `void` —
the caller passes no transfer handle, sequence number, or state of any kind. -/
abbrev SendEp0AckArgs : Type := Unit

/-- A return type `R` can surface failures to the immediate caller as a distinct
outcome when success and each of the four failure kinds map to pairwise distinct
values of `R`, i.e. there is an injection from `Option FwError` (with `none`
standing for success) into `R`. A `void` return carries nothing; a bare `bool`
can at best be a generic success flag. -/
def surfacesDistinctOutcomes (R : Type) : Prop :=
  ∃ f : Option FwError → R, Function.Injective f

/-- Modelled from the spec: the board wiring and driver condition the GPIO
wrapper sits on (§4.1; the source declares no such state — `validPin` says
which `uint8_t` identifiers map to a pin the hardware exposes, `gpioFault`
whether the underlying driver reports an error). -/
structure Board where
  validPin : Nat → Bool
  gpioFault : Bool

/-- Modelled from the spec: the physical line state of the GPIO pins (§4.1;
absent from the source header). Each pin holds a boolean level, `high = true`. -/
structure GpioState where
  level : Nat → Bool

/-- Modelled from the spec: the body of `set_gpio_value` (sanity.h only
declares it). Per §4.1 it drives `pin` to `is_high`, fails with `InvalidPin`
if the identifier is unmapped, fails with `HardwareFault` if the underlying
driver reports an error, and produces no side effect on failure. The state
component of the result is the line state after the call. -/
def set_gpio_value (b : Board) (s : GpioState) (pin : Nat) (is_high : Bool) :
    Except FwError Unit × GpioState :=
  if b.validPin pin then
    if b.gpioFault then
      (Except.error FwError.hardwareFault, s)
    else
      (Except.ok (), { level := fun p => if p = pin then is_high else s.level p })
  else
    (Except.error FwError.invalidPin, s)

/-- Modelled from the spec: the body of `get_gpio_value` (sanity.h only
declares it). Per §4.1 it reads the current logical level of `pin`, with the
same precondition and failure modes as `set_gpio_value`; if the hardware
cannot report a level it fails rather than returning a guessed value. -/
def get_gpio_value (b : Board) (s : GpioState) (pin : Nat) : Except FwError Bool :=
  if b.validPin pin then
    if b.gpioFault then
      Except.error FwError.hardwareFault
    else
      Except.ok (s.level pin)
  else
    Except.error FwError.invalidPin

/-- Modelled from the spec: the per-transfer state machine of §4.2
(`SetupReceived → DataStage → Complete`, with `Aborted` reachable on bus error
or host cancellation); implicit in the source, not exposed as an object. -/
inductive XferState where
  | setupReceived
  | dataStaged
  | complete
  | aborted
deriving DecidableEq, Repr

/-- Modelled from the spec: the bus/driver environment of one EP0 control
transfer (absent from the source header): the bytes the host attempts to push
in a receive data stage, whether a bus error or host cancellation occurs
mid-transfer, and whether the driver can emit the status-stage packet. -/
structure Ep0Host where
  hostData : List Nat
  busError : Bool
  driverAckFault : Bool

/-- Modelled from the spec: the open implementation choice of §4.2/§9 for a
`receive` whose host data exceeds `max_length` — truncate, or reject with
`BufferTooSmall`. One fixed policy parameterizes a whole implementation. -/
inductive OverrunPolicy where
  | truncate
  | reject
deriving DecidableEq, Repr

/-- Modelled from the spec: the body of `send_on_ep0` (sanity.h only declares
it). Per §4.2 it hands exactly `length` bytes from `data` to the driver,
blocking; on bus error or host cancellation it fails with `TransferAborted`
and leaves the transfer in the `Aborted` state (§7), with no internal retry. -/
def send_on_ep0 (h : Ep0Host) (data : List Nat) (length : Nat) :
    Except FwError (List Nat) × XferState :=
  if h.busError then
    (Except.error FwError.transferAborted, XferState.aborted)
  else
    (Except.ok (data.take length), XferState.dataStaged)

/-- Modelled from the spec: the body of `receive_on_ep0` (sanity.h only
declares it). Per §4.2 it blocks until the host data stage completes, writes
at most `max_length` bytes into the buffer and reports how many were written;
when the host sends more than `max_length` bytes the fixed policy either
truncates or fails with `BufferTooSmall`; a bus error fails with
`TransferAborted`. The `ok` payload is the bytes written paired with the
reported actual length. -/
def receive_on_ep0 (pol : OverrunPolicy) (h : Ep0Host) (max_length : Nat) :
    Except FwError (List Nat × Nat) :=
  if h.busError then
    Except.error FwError.transferAborted
  else if h.hostData.length ≤ max_length then
    Except.ok (h.hostData, h.hostData.length)
  else
    match pol with
    | OverrunPolicy.truncate => Except.ok (h.hostData.take max_length, max_length)
    | OverrunPolicy.reject => Except.error FwError.bufferTooSmall

/-- Modelled from the spec: the body of `send_ep0_ack` (sanity.h only declares
it). Per §4.2 it emits the zero-length status packet completing the transfer;
if the underlying driver cannot emit the packet the failure surfaces as
`HardwareFault` (never silently ignored), and on a transfer already in the
`Aborted` state the call fails rather than silently succeeding (§8). -/
def send_ep0_ack (h : Ep0Host) (st : XferState) : Except FwError Unit × XferState :=
  if h.driverAckFault then
    (Except.error FwError.hardwareFault, XferState.aborted)
  else if st = XferState.aborted then
    (Except.error FwError.transferAborted, XferState.aborted)
  else
    (Except.ok (), XferState.complete)

/-- Value delivered through the `uint16_t *out_actual_length` out-parameter
declared for `receive_on_ep0` in sanity.h line 39: storing a length into a
16-bit unsigned object reduces it modulo 2^16. -/
def out_actual_length (actual : Nat) : Nat := actual % 2 ^ 16

/-- Largest value of the `size_t max_length` parameter declared for
`receive_on_ep0` in sanity.h line 39, on the 32-bit firmware target. -/
def size_t_max : Nat := 2 ^ 32 - 1

/-- What the caller of `receive_on_ep0` observes through the declared
interface: the status, and on success the actual length as delivered through
the `uint16_t` out-parameter. -/
def receive_on_ep0_reported (pol : OverrunPolicy) (h : Ep0Host) (max_length : Nat) :
    Except FwError Nat :=
  Except.map (fun r => out_actual_length r.2) (receive_on_ep0 pol h max_length)

/-- A `void` return (embedded as `Unit`) cannot surface distinct outcomes:
there is no injection of five outcomes into a one-value type. -/
theorem not_surfacesDistinctOutcomes_unit : ¬ surfacesDistinctOutcomes Unit := by
  rintro ⟨f, hf⟩
  have h : (Option.none : Option FwError) = Option.some FwError.invalidPin :=
    hf (Subsingleton.elim _ _)
  exact Option.noConfusion h

/-- A bare `bool` return cannot surface distinct outcomes: there is no
injection of five outcomes into a two-value type. -/
theorem not_surfacesDistinctOutcomes_bool : ¬ surfacesDistinctOutcomes Bool := by
  rintro ⟨f, hf⟩
  have h := Fintype.card_le_of_injective f hf
  have hc : Fintype.card (Option FwError) = 5 := by
    simp [Fintype.card_option]
    rfl
  rw [hc, Fintype.card_bool] at h
  omega

/-- An `int` return can surface success and all four failures distinctly. -/
theorem surfacesDistinctOutcomes_int : surfacesDistinctOutcomes Int := by
  refine ⟨fun o => match o with
    | Option.none => 0
    | Option.some FwError.invalidPin => 1
    | Option.some FwError.hardwareFault => 2
    | Option.some FwError.transferAborted => 3
    | Option.some FwError.bufferTooSmall => 4, ?_⟩
  decide

/-- Demo board: pins 0–7 are mapped, the driver is healthy. -/
def bDemo : Board := ⟨fun p => decide (p < 8), false⟩

/-- Demo board whose underlying GPIO driver reports an error. -/
def bFaulty : Board := ⟨fun p => decide (p < 8), true⟩

/-- Demo line state: every pin low. -/
def sDemo : GpioState := ⟨fun _ => false⟩

/-- Demo EP0 environment: the host pushes four bytes, no bus error, the
driver can emit the status packet. -/
def hDemo : Ep0Host := ⟨[1, 2, 3, 4], false, false⟩

/-- Demo EP0 environment with a bus error mid-transfer. -/
def hAbort : Ep0Host := ⟨[], true, false⟩

/-- Demo EP0 environment whose driver cannot emit the status packet. -/
def hAckFault : Ep0Host := ⟨[], false, true⟩

/-- C1: for every call `receive(buffer, max_length)` that reports an actual
length (an `ok` result), the reported actual length is at most `max_length`,
whatever amount of data the host attempts to send and whichever overrun
policy the implementation fixed. -/
theorem receive_on_ep0_actual_le_max (pol : OverrunPolicy) (h : Ep0Host)
    (max_length : Nat) (buf : List Nat) (actual : Nat)
    (hr : receive_on_ep0 pol h max_length = Except.ok (buf, actual)) :
    actual ≤ max_length := by
  unfold receive_on_ep0 at hr
  by_cases hb : h.busError
  · simp [hb] at hr
  · by_cases hl : h.hostData.length ≤ max_length
    · simp [hb, hl] at hr
      omega
    · cases pol with
      | truncate =>
        simp [hb, hl] at hr
        omega
      | reject => simp [hb, hl] at hr

/-- C1 witness: the host pushes 4 bytes into a receive with capacity 2 under
the truncating policy; the reported actual length 2 is at most 2. -/
theorem receive_on_ep0_actual_le_max_witness :
    receive_on_ep0 OverrunPolicy.truncate hDemo 2 = Except.ok ([1, 2], 2) ∧
      (2 : Nat) ≤ 2 :=
  ⟨rfl, receive_on_ep0_actual_le_max OverrunPolicy.truncate hDemo 2 [1, 2] 2 rfl⟩

/-- C2: when the host sends more than `max_length` bytes, the receive either
truncates (reporting `actual_length = max_length`) or fails with
`BufferTooSmall`; and under one fixed implementation policy there is no pair
of such calls where one truncates and the other rejects. -/
theorem receive_on_ep0_policy_consistent (pol : OverrunPolicy) (h1 h2 : Ep0Host)
    (m1 m2 : Nat) (e1 : h1.busError = false) (e2 : h2.busError = false)
    (o1 : m1 < h1.hostData.length) (o2 : m2 < h2.hostData.length) :
    (receive_on_ep0 pol h1 m1 = Except.ok (h1.hostData.take m1, m1) ∨
      receive_on_ep0 pol h1 m1 = Except.error FwError.bufferTooSmall) ∧
    ¬(receive_on_ep0 pol h1 m1 = Except.ok (h1.hostData.take m1, m1) ∧
      receive_on_ep0 pol h2 m2 = Except.error FwError.bufferTooSmall) := by
  have hl1 : ¬ h1.hostData.length ≤ m1 := by omega
  have hl2 : ¬ h2.hostData.length ≤ m2 := by omega
  cases pol with
  | truncate =>
    refine ⟨Or.inl (by simp [receive_on_ep0, e1, hl1]), ?_⟩
    rintro ⟨-, hbad⟩
    simp [receive_on_ep0, e2, hl2] at hbad
  | reject =>
    refine ⟨Or.inr (by simp [receive_on_ep0, e1, hl1]), ?_⟩
    rintro ⟨hbad, -⟩
    simp [receive_on_ep0, e1, hl1] at hbad

/-- C2 witness: two oversized receives (capacity 2 and 3 against 4 host
bytes) under the truncating policy; each call truncates or rejects, and the
two calls do not disagree on the policy. -/
theorem receive_on_ep0_policy_consistent_witness :
    (receive_on_ep0 OverrunPolicy.truncate hDemo 2 = Except.ok ([1, 2], 2) ∨
      receive_on_ep0 OverrunPolicy.truncate hDemo 2 =
        Except.error FwError.bufferTooSmall) ∧
    ¬(receive_on_ep0 OverrunPolicy.truncate hDemo 2 = Except.ok ([1, 2], 2) ∧
      receive_on_ep0 OverrunPolicy.truncate hDemo 3 =
        Except.error FwError.bufferTooSmall) :=
  receive_on_ep0_policy_consistent OverrunPolicy.truncate hDemo hDemo 2 3 rfl rfl
    (by decide) (by decide)

/-- C3 counterexample: at the interface declared in sanity.h, the operation
`set_gpio_value` returns `void`, so its failures are not surfaced to the
immediate caller as a distinct outcome — the claim fails at this operation. -/
theorem set_gpio_value_ret_not_distinct :
    ¬ surfacesDistinctOutcomes SetGpioValueRet :=
  not_surfacesDistinctOutcomes_unit

/-- C3 amended: of the interface declared in sanity.h, only `receive_on_ep0`
(returning `int`) can surface failures as distinct outcomes; `set_gpio_value`,
`send_on_ep0` and `send_ep0_ack` return `void` and `get_gpio_value` returns
only the level as a bare `bool`, so their failures are absent or conflated at
the declared interface. In the modelled design a driver fault is surfaced
once as `HardwareFault`, not retried into a success. -/
theorem error_surfacing_amended :
    surfacesDistinctOutcomes ReceiveOnEp0Ret ∧
    ¬ surfacesDistinctOutcomes GetGpioValueRet ∧
    ¬ surfacesDistinctOutcomes SendOnEp0Ret ∧
    ¬ surfacesDistinctOutcomes SendEp0AckRet ∧
    (∀ (b : Board) (s : GpioState) (pin : Nat) (L : Bool),
      b.validPin pin = true → b.gpioFault = true →
      (set_gpio_value b s pin L).1 = Except.error FwError.hardwareFault) := by
  refine ⟨surfacesDistinctOutcomes_int, not_surfacesDistinctOutcomes_bool,
    not_surfacesDistinctOutcomes_unit, not_surfacesDistinctOutcomes_unit,
    ?_⟩
  intro b s pin L hv hf
  simp [set_gpio_value, hv, hf]

/-- C3 witness: on the demo board with a faulting GPIO driver, setting mapped
pin 3 surfaces `HardwareFault` to the caller. -/
theorem error_surfacing_amended_witness :
    (set_gpio_value bFaulty sDemo 3 true).1 =
      Except.error FwError.hardwareFault :=
  error_surfacing_amended.2.2.2.2 bFaulty sDemo 3 true rfl rfl

/-- C4: whenever `send_on_ep0` returns `TransferAborted` (bus error
mid-send), a subsequent `send_ep0_ack` on the same transfer — whose state the
aborted send left as `Aborted` — fails rather than silently succeeding,
whatever the driver condition at ack time. -/
theorem send_aborted_then_ack_fails (h h2 : Ep0Host) (data : List Nat)
    (length : Nat)
    (ha : (send_on_ep0 h data length).1 = Except.error FwError.transferAborted) :
    ∃ e, (send_ep0_ack h2 (send_on_ep0 h data length).2).1 = Except.error e := by
  by_cases hb : h.busError
  · by_cases hf : h2.driverAckFault
    · exact ⟨FwError.hardwareFault, by simp [send_on_ep0, send_ep0_ack, hb, hf]⟩
    · exact ⟨FwError.transferAborted, by simp [send_on_ep0, send_ep0_ack, hb, hf]⟩
  · simp [send_on_ep0, hb] at ha

/-- C4 witness: a bus error aborts a 2-byte send; the subsequent ack on that
transfer fails with some error. -/
theorem send_aborted_then_ack_fails_witness :
    ∃ e, (send_ep0_ack hDemo (send_on_ep0 hAbort [1, 2] 2).2).1 =
      Except.error e :=
  send_aborted_then_ack_fails hAbort hDemo [1, 2] 2 rfl

/-- C5: if the underlying driver cannot emit the zero-length status packet,
`send_ep0_ack` surfaces the failure to the caller as `HardwareFault` and in
particular never reports silent success. -/
theorem send_ep0_ack_driver_fault_surfaces (h : Ep0Host) (st : XferState)
    (hf : h.driverAckFault = true) :
    (send_ep0_ack h st).1 = Except.error FwError.hardwareFault ∧
    (send_ep0_ack h st).1 ≠ Except.ok () := by
  simp [send_ep0_ack, hf]

/-- C5 witness: with a driver that cannot emit the packet, the ack after a
completed data stage surfaces `HardwareFault`. -/
theorem send_ep0_ack_driver_fault_surfaces_witness :
    (send_ep0_ack hAckFault XferState.dataStaged).1 =
      Except.error FwError.hardwareFault ∧
    (send_ep0_ack hAckFault XferState.dataStaged).1 ≠ Except.ok () :=
  send_ep0_ack_driver_fault_surfaces hAckFault XferState.dataStaged rfl

/-- C6: every call to `get_gpio_value` either returns a definite high/low
level or fails with an error — the result type admits no third, "unknown"
outcome — and whenever the hardware cannot report a level (driver fault) the
call fails rather than returning a guessed value. -/
theorem get_gpio_value_definite_or_fails (b : Board) (s : GpioState)
    (pin : Nat) :
    ((∃ lv : Bool, get_gpio_value b s pin = Except.ok lv) ∨
      (∃ e, get_gpio_value b s pin = Except.error e)) ∧
    (b.gpioFault = true → ∃ e, get_gpio_value b s pin = Except.error e) := by
  constructor
  · cases hg : get_gpio_value b s pin with
    | ok lv => exact Or.inl ⟨lv, rfl⟩
    | error e => exact Or.inr ⟨e, rfl⟩
  · intro hf
    by_cases hv : b.validPin pin
    · exact ⟨FwError.hardwareFault, by simp [get_gpio_value, hv, hf]⟩
    · exact ⟨FwError.invalidPin, by simp [get_gpio_value, hv]⟩

/-- C6 witness: on the demo board whose driver cannot report a level, reading
mapped pin 3 fails with some error instead of guessing. -/
theorem get_gpio_value_definite_or_fails_witness :
    ∃ e, get_gpio_value bFaulty sDemo 3 = Except.error e :=
  (get_gpio_value_definite_or_fails bFaulty sDemo 3).2 rfl

/-- C7: for every pin and level, reading the pin immediately after a
successful `set_gpio_value` on the same board and resulting line state (no
external interference) returns the level just written. -/
theorem gpio_set_get_roundtrip (b : Board) (s : GpioState) (pin : Nat)
    (L : Bool) (hs : (set_gpio_value b s pin L).1 = Except.ok ()) :
    get_gpio_value b (set_gpio_value b s pin L).2 pin = Except.ok L := by
  by_cases hv : b.validPin pin
  · by_cases hf : b.gpioFault
    · simp [set_gpio_value, hv, hf] at hs
    · simp [set_gpio_value, get_gpio_value, hv, hf]
  · simp [set_gpio_value, hv] at hs

/-- C7 witness: on the demo board, setting mapped pin 3 high succeeds and a
subsequent read of pin 3 returns high. -/
theorem gpio_set_get_roundtrip_witness :
    (set_gpio_value bDemo sDemo 3 true).1 = Except.ok () ∧
    get_gpio_value bDemo (set_gpio_value bDemo sDemo 3 true).2 3 =
      Except.ok true :=
  ⟨rfl, gpio_set_get_roundtrip bDemo sDemo 3 true rfl⟩

/-- C8: for every unmapped pin identifier, both GPIO operations fail with
`InvalidPin`, and the set operation leaves the line state unchanged (no side
effect on failure). -/
theorem gpio_invalid_pin_fails_no_side_effect (b : Board) (s : GpioState)
    (pin : Nat) (L : Bool) (hv : b.validPin pin = false) :
    set_gpio_value b s pin L = (Except.error FwError.invalidPin, s) ∧
    get_gpio_value b s pin = Except.error FwError.invalidPin := by
  simp [set_gpio_value, get_gpio_value, hv]

/-- C8 witness: pin 9 is unmapped on the demo board; set fails with
`InvalidPin` leaving the state untouched, and get fails with `InvalidPin`. -/
theorem gpio_invalid_pin_fails_no_side_effect_witness :
    set_gpio_value bDemo sDemo 9 true =
      (Except.error FwError.invalidPin, sDemo) ∧
    get_gpio_value bDemo sDemo 9 = Except.error FwError.invalidPin :=
  gpio_invalid_pin_fails_no_side_effect bDemo sDemo 9 true rfl

/-- C9: the actual length reaches the caller through a `uint16_t`
out-parameter, so every reported value is at most 65535, while the `size_t`
capacity parameter can exceed 65535; a receive of 70000 bytes cannot be
reported exactly through this interface. -/
theorem receive_reported_uint16_bound :
    (∀ (pol : OverrunPolicy) (h : Ep0Host) (max_length n : Nat),
        receive_on_ep0_reported pol h max_length = Except.ok n → n ≤ 65535) ∧
    65535 < size_t_max ∧ 70000 ≤ size_t_max ∧
    out_actual_length 70000 ≠ 70000 := by
  refine ⟨?_, by norm_num [size_t_max], by norm_num [size_t_max],
    by norm_num [out_actual_length]⟩
  intro pol h max_length n hr
  unfold receive_on_ep0_reported at hr
  cases hrec : receive_on_ep0 pol h max_length with
  | ok r =>
    rw [hrec] at hr
    simp [Except.map] at hr
    have : out_actual_length r.2 < 2 ^ 16 := Nat.mod_lt _ (by norm_num)
    omega
  | error e =>
    rw [hrec] at hr
    simp [Except.map] at hr

/-- C9 witness: a 4-byte host push into a capacity-2 receive reports 2
through the `uint16_t` out-parameter, and 2 is at most 65535. -/
theorem receive_reported_uint16_bound_witness :
    receive_on_ep0_reported OverrunPolicy.truncate hDemo 2 = Except.ok 2 ∧
      (2 : Nat) ≤ 65535 :=
  ⟨rfl,
    receive_reported_uint16_bound.1 OverrunPolicy.truncate hDemo 2 2 rfl⟩

/-- C10: `send_ep0_ack` is declared with no parameters, so any two calls are
indistinguishable at the interface (their argument lists are equal, hence any
function of the arguments takes the same value on both); in particular the
layer does not reject a repeated ack — acking a transfer already in the
`Complete` state succeeds whenever the driver is healthy, so per-transfer
sequencing is enforceable only by caller discipline. -/
theorem send_ep0_ack_interface_stateless :
    (∀ a b : SendEp0AckArgs, a = b) ∧
    (∀ h : Ep0Host, h.driverAckFault = false →
      (send_ep0_ack h XferState.complete).1 = Except.ok ()) := by
  refine ⟨fun a b => Subsingleton.elim a b, ?_⟩
  intro h hf
  simp [send_ep0_ack, hf]

/-- C10 witness: with a healthy driver, a second ack on an already complete
transfer silently succeeds — the layer cannot reject it. -/
theorem send_ep0_ack_interface_stateless_witness :
    (send_ep0_ack hDemo XferState.complete).1 = Except.ok () :=
  send_ep0_ack_interface_stateless.2 hDemo rfl
